import Mathlib

/-!
Verification development for the material cross-reference engine of
src/app.py: the filter `analyze_material_data`, the prompt composers
(`create_analysis_prompt` and the general prompt assembled inline in
`main`), and the analysis client `ask_llm_simple`.

Modelling conventions.
A pandas DataFrame is an ordered list of rows with named columns; a cell
is a string, an integer, or a missing value (NaN).  Pandas
`df.astype(str)` stringifies every cell with Python `str`: strings are
unchanged, integers print their digits, and a missing value becomes the
literal string "nan".  The per-cell test
`str.contains(token, case=False, na=False)` compiles `token` as a regular
expression (pandas default `regex=True`) and searches it case
insensitively; `na=False` is inert because after `astype(str)` no cell is
missing.  A raised Python exception is modelled as `Except.error`.

The regular-expression engine is modelled on the fragment actually
exercised by the theorems below: patterns made of literal characters and
the metacharacter dot (which matches any character except a newline), and
the compile-time error raised for an unbalanced group character.  The
remaining Python metacharacters are outside the modelled fragment and
`compileAux` reports them as errors; no theorem below evaluates the model
on such a token, every general statement restricts the token to
metacharacter-free strings, where the model agrees with Python exactly.
-/

/-- A cell of a loaded spreadsheet: a string, an integer, or a
missing value (pandas NaN). -/
inductive Cell
  | str (s : String)
  | int (n : Int)
  | null
deriving DecidableEq, Repr

/-- A row, as the ordered mapping produced by `to_dict` with the
`records` orientation: column name paired with the cell value. -/
abbrev Row : Type := List (String × Cell)

/-- A DataFrame: the column names in order, and the rows in order. -/
structure DataFrame where
  cols : List String
  rows : List Row
deriving DecidableEq

/-- Python `str` of a cell after `astype(str)`: a string cell is kept,
an integer prints its digits, and NaN becomes the string "nan". -/
def pyStr : Cell → String
  | Cell.str s => s
  | Cell.int n => toString n
  | Cell.null => "nan"

/-- One token of a compiled pattern in the modelled regex fragment. -/
inductive RTok
  | lit (c : Char)
  | dot
deriving DecidableEq, Repr

/-- The characters Python `re` treats as special outside a character
class. -/
def pyMetachars : List Char :=
  ['.', '^', '$', '*', '+', '?', '\x7b', '\x7d', '[', ']', '\\', '|', '(', ')']

/-- `re.compile` on the modelled fragment: literal characters compile to
`RTok.lit`, a dot to `RTok.dot`, and an unbalanced group character raises
`re.error` (message abridged, without the position suffix Python
appends).  Other metacharacters are outside the modelled fragment and are
reported as errors; no theorem evaluates the model on them. -/
def compileAux : List Char → Except String (List RTok)
  | [] => Except.ok []
  | c :: cs =>
    if c = '(' then Except.error "missing ), unterminated subpattern"
    else if c = ')' then Except.error "unbalanced parenthesis"
    else if c = '.' then (compileAux cs).map (fun p => RTok.dot :: p)
    else if pyMetachars.contains c then
      Except.error "metacharacter outside the modelled regex fragment"
    else (compileAux cs).map (fun p => RTok.lit c :: p)

/-- Compile a search token the way `str.contains` does. -/
def compilePy (token : String) : Except String (List RTok) :=
  compileAux token.data

/-- Case-insensitive match of one pattern token against one character
(`re.IGNORECASE`); a dot matches everything except a newline. -/
def tokMatch : RTok → Char → Bool
  | RTok.lit c, d => c.toLower == d.toLower
  | RTok.dot, d => !(d == '\n')

/-- Does the pattern match at the head of the character list? -/
def matchesAt : List RTok → List Char → Bool
  | [], _ => true
  | _ :: _, [] => false
  | t :: ts, c :: cs => tokMatch t c && matchesAt ts cs

/-- `re.search`: does the pattern match at some position of the
character list? -/
def regexSearch (pat : List RTok) : List Char → Bool
  | [] => matchesAt pat []
  | c :: cs => matchesAt pat (c :: cs) || regexSearch pat cs

/-- The row-level OR of src/app.py line 39: a row matches when the
stringified value of any of its cells matches the compiled token. -/
def rowMatchB (pat : List RTok) (row : Row) : Bool :=
  row.any (fun kv => regexSearch pat (pyStr kv.2).data)

/-- The per-table match set of `analyze_material_data`: the count and the
matching rows (`to_dict` on the filtered frame). -/
structure MatchSet where
  count : Nat
  data : List Row
deriving DecidableEq

/-- The filter body repeated for each present table in
`analyze_material_data` (src/app.py lines 38 to 43): compile the token,
keep the rows whose stringified cells match, report the count and, when
the count is positive, the rows themselves (Python writes the literal
empty list when no row matched, which is the same list). -/
def analyzeOne (material_code : String) (df : DataFrame) : Except String MatchSet :=
  match compilePy material_code with
  | Except.error e => Except.error e
  | Except.ok pat =>
    let rows := df.rows.filter (rowMatchB pat)
    Except.ok ⟨rows.length, if rows.length > 0 then rows else []⟩

/-- A table slot of `analyze_material_data`: an absent table contributes
no entry, a present one is filtered. -/
def analyzeOpt (material_code : String) : Option DataFrame → Except String (Option MatchSet)
  | none => Except.ok none
  | some df =>
    match analyzeOne material_code df with
    | Except.error e => Except.error e
    | Except.ok ms => Except.ok (some ms)

/-- The result dictionary of `analyze_material_data`: one optional entry
per table. -/
structure AnalysisData where
  sales : Option MatchSet
  production : Option MatchSet
  reservations : Option MatchSet
deriving DecidableEq

/-- src/app.py lines 33 to 61: filter the three tables in order (sales,
production, reservations), skipping absent ones; a raised exception
(modelled as `Except.error`) aborts the whole call. -/
def analyze_material_data (material_code : String)
    (sales_df production_df reservations_df : Option DataFrame) :
    Except String AnalysisData :=
  match analyzeOpt material_code sales_df with
  | Except.error e => Except.error e
  | Except.ok ms =>
    match analyzeOpt material_code production_df with
    | Except.error e => Except.error e
    | Except.ok mp =>
      match analyzeOpt material_code reservations_df with
      | Except.error e => Except.error e
      | Except.ok mr => Except.ok ⟨ms, mp, mr⟩

/-- Spec-side definition, from the words of the specification only: is
`needle` contained in `hay` as a case-insensitive substring?  Auxiliary
prefix check over character lists. -/
def isPrefixCh : List Char → List Char → Bool
  | [], _ => true
  | _ :: _, [] => false
  | a :: as, b :: bs => (a == b) && isPrefixCh as bs

/-- Spec-side definition: does `n` occur as a contiguous run inside the
character list? -/
def isSubstrCh (n : List Char) : List Char → Bool
  | [] => isPrefixCh n []
  | c :: cs => isPrefixCh n (c :: cs) || isSubstrCh n cs

/-- Spec-side definition of the matching policy as the specification
states it: the stringified value contains the token as a case-insensitive
substring. -/
def specContains (hay needle : String) : Bool :=
  isSubstrCh (needle.data.map Char.toLower) (hay.data.map Char.toLower)

/-- A token free of regex metacharacters; on such tokens the modelled
engine and Python agree, and matching degenerates to substring search. -/
def noMeta (token : String) : Bool :=
  token.data.all (fun c => !pyMetachars.contains c)

/-- Python `repr` of a cell value as it appears inside an f-string
rendering of a records list: strings are quoted, integers print their
digits, NaN prints as nan.  Escape sequences inside string cells are not
modelled. -/
def pyReprCell : Cell → String
  | Cell.str s => "\x27" ++ s ++ "\x27"
  | Cell.int n => toString n
  | Cell.null => "nan"

/-- Python `repr` of one key-value pair of a record dictionary. -/
def pyReprKV (kv : String × Cell) : String :=
  "\x27" ++ kv.1 ++ "\x27: " ++ pyReprCell kv.2

/-- Python `repr` of one record dictionary. -/
def pyReprRow (r : Row) : String :=
  "\x7b" ++ String.intercalate ", " (r.map pyReprKV) ++ "\x7d"

/-- Python `repr` of a records list, as rendered by an f-string. -/
def pyReprRows (rs : List Row) : String :=
  "[" ++ String.intercalate ", " (rs.map pyReprRow) ++ "]"

/-- Python `repr` of a list of column names. -/
def pyReprStrList (l : List String) : String :=
  "[" ++ String.intercalate ", " (l.map (fun s => "\x27" ++ s ++ "\x27")) ++ "]"

/-- src/app.py lines 67 to 69: the head sample embedded in the material
prompt, `df.head(5).to_dict("records")` for a present table and the empty
list for an absent one. -/
def headSample : Option DataFrame → List Row
  | none => []
  | some d => d.rows.take 5

/-- `analysis_data.get(key, dict()).get("count", 0)`. -/
def countOf : Option MatchSet → Nat
  | none => 0
  | some m => m.count

/-- `analysis_data.get(key, dict()).get("data", list())`. -/
def dataOf : Option MatchSet → List Row
  | none => []
  | some m => m.data

/-- `list(df.columns) if df is not None else list()`. -/
def colsOf : Option DataFrame → List String
  | none => []
  | some d => d.cols

/-- The FIELD DEFINITIONS glossary block, textually identical in the
material template (src/app.py lines 74 to 97) and the general template
(lines 351 to 374). -/
def field_definitions_block : String :=
  "FIELD DEFINITIONS FOR CONTEXT:\n"
  ++ "\n"
  ++ "RESERVATIONS DATA (RESB table):\n"
  ++ "- RSPOS: Reservation Item\n"
  ++ "- AUFNR: Production Order Number (The key link!)\n"
  ++ "- MATNR: Component Material (the one being consumed)\n"
  ++ "- BDMNG: Reserved Quantity\n"
  ++ "- MEINS: Unit of Measure for the component\n"
  ++ "\n"
  ++ "PRODUCTION DATA (AFKO table):\n"
  ++ "- AUFNR: Production Order Number (links with reservations)\n"
  ++ "- PLNBEZ: Material to be Produced (the finished product)\n"
  ++ "- GAMNG: Total order quantity (of the finished product)\n"
  ++ "- GMEIN: Unit of Measure for the order (of the finished product)\n"
  ++ "- GSTRP: Basic start date\n"
  ++ "- GLTRP: Basic finish date\n"
  ++ "\n"
  ++ "SALES DATA (VBAP table):\n"
  ++ "- VBELN: Sales Document Number (sales order)\n"
  ++ "- POSNR: Sales Document Item\n"
  ++ "- MATNR: Material Number\n"
  ++ "- KWMENG: Sales Quantity (of the finished product)\n"
  ++ "- VRKME: Sales Unit of Measure\n"
  ++ "- NETWR: Net value of the item\n"

/-- The material template from its start up to and including the label
that precedes the sales head sample. -/
def camSeg0 (material_code : String) (ad : AnalysisData) (sales_df : Option DataFrame) : String :=
  "\n"
  ++ "You are an expert SAP data analyst specializing in supply chain and production analysis. \n"
  ++ "\n"
  ++ field_definitions_block
  ++ "\n"
  ++ "ANALYSIS REQUEST FOR MATERIAL: " ++ material_code ++ "\n"
  ++ "\n"
  ++ "CURRENT DATASET INFORMATION:\n"
  ++ "\n"
  ++ "SALES DATA (" ++ toString (countOf ad.sales) ++ " records found for material " ++ material_code ++ "):\n"
  ++ "Available columns: " ++ pyReprStrList (colsOf sales_df) ++ "\n"
  ++ "Sample of full dataset (first 5 rows): "

/-- The material template between the sales head sample and the
production head sample. -/
def camSeg1 (material_code : String) (ad : AnalysisData) (production_df : Option DataFrame) : String :=
  "\n"
  ++ "Filtered data for material " ++ material_code ++ ": " ++ pyReprRows (dataOf ad.sales) ++ "\n"
  ++ "\n"
  ++ "PRODUCTION DATA (" ++ toString (countOf ad.production) ++ " records found for material " ++ material_code ++ "):\n"
  ++ "Available columns: " ++ pyReprStrList (colsOf production_df) ++ "\n"
  ++ "Sample of full dataset (first 5 rows): "

/-- The material template between the production head sample and the
reservations head sample. -/
def camSeg2 (material_code : String) (ad : AnalysisData) (reservations_df : Option DataFrame) : String :=
  "\n"
  ++ "Filtered data for material " ++ material_code ++ ": " ++ pyReprRows (dataOf ad.production) ++ "\n"
  ++ "\n"
  ++ "RESERVATIONS DATA (" ++ toString (countOf ad.reservations) ++ " records found for material " ++ material_code ++ "):\n"
  ++ "Available columns: " ++ pyReprStrList (colsOf reservations_df) ++ "\n"
  ++ "Sample of full dataset (first 5 rows): "

/-- The material template after the reservations head sample. -/
def camSeg3 (material_code : String) (ad : AnalysisData) : String :=
  "\n"
  ++ "Filtered data for material " ++ material_code ++ ": " ++ pyReprRows (dataOf ad.reservations) ++ "\n"
  ++ "\n"
  ++ "Please provide a comprehensive analysis including:\n"
  ++ "1. Summary of sales performance and quantities for this material\n"
  ++ "2. Production orders status and quantities (linking via AUFNR when possible)\n"
  ++ "3. Reservation status and component consumption\n"
  ++ "4. Cross-reference analysis: How do sales orders relate to production orders and material reservations?\n"
  ++ "5. Risk analysis: Could sales orders be affected by reservation shortages or production delays?\n"
  ++ "6. Timeline analysis using start dates (GSTRP) and finish dates (GLTRP)\n"
  ++ "7. Recommendations for supply chain optimization\n"
  ++ "\n"
  ++ "Focus on the relationships between AUFNR (production orders), MATNR (materials), quantities (BDMNG, GAMNG, KWMENG), and dates.\n"

/-- src/app.py lines 63 to 129: the material analysis prompt, an
f-string interpolating the token, the filter result, the column lists and
the three head samples into a fixed template. -/
def create_analysis_prompt (material_code : String) (analysis_data : AnalysisData)
    (sales_df production_df reservations_df : Option DataFrame) : String :=
  camSeg0 material_code analysis_data sales_df
  ++ pyReprRows (headSample sales_df)
  ++ camSeg1 material_code analysis_data production_df
  ++ pyReprRows (headSample production_df)
  ++ camSeg2 material_code analysis_data reservations_df
  ++ pyReprRows (headSample reservations_df)
  ++ camSeg3 material_code analysis_data

/-- One per-table block of the general template: shape, columns and head
sample of a loaded table. -/
def generalTableBlock (label : String) (df : DataFrame) : String :=
  label ++ ": " ++ toString df.rows.length ++ " rows, " ++ toString df.cols.length ++ " columns\n"
  ++ "Available columns: " ++ pyReprStrList df.cols ++ "\n"
  ++ "Sample data (first 5 rows): " ++ pyReprRows (df.rows.take 5) ++ "\n"

/-- src/app.py lines 348 to 400: the general analysis prompt assembled
inline in `main`; on this path all three tables are known to be loaded,
so the inputs are not optional. -/
def compose_general_prompt (user_query : String)
    (sales_df production_df reservations_df : DataFrame) : String :=
  "\n"
  ++ "You are an expert SAP data analyst specializing in supply chain and production analysis.\n"
  ++ "\n"
  ++ field_definitions_block
  ++ "\n"
  ++ "CURRENT DATASETS:\n"
  ++ "\n"
  ++ generalTableBlock "SALES DATA" sales_df
  ++ "\n"
  ++ generalTableBlock "PRODUCTION DATA" production_df
  ++ "\n"
  ++ generalTableBlock "RESERVATIONS DATA" reservations_df
  ++ "\n"
  ++ "USER QUESTION: " ++ user_query ++ "\n"
  ++ "\n"
  ++ "Please provide a comprehensive analysis and answer based on:\n"
  ++ "1. The SAP field definitions above\n"
  ++ "2. The actual data structure and sample records\n"
  ++ "3. Relationships between tables (especially via AUFNR and MATNR)\n"
  ++ "4. Focus on quantities, dates, and business implications\n"
  ++ "5. Include specific recommendations and insights where appropriate\n"
  ++ "\n"
  ++ "Analyze the data relationships and provide actionable insights for supply chain optimization.\n"

/-- The fixed message returned when the proxy client could not be
constructed (src/app.py line 24). -/
def unavailable_msg : String :=
  "GenAI Hub is not available. Please check your configuration."

/-- src/app.py lines 21 to 31.  The module-level proxy client is `none`
when `get_proxy_client` raised at import time.  The external chat call
`ChatOpenAI(...).invoke(prompt).content` is modelled by the oracle
`llmInvoke`, returning either the reply text or the description of the
exception it raised; the `try` block turns the latter into a sentinel
string.  The function is total: no failure path raises to the caller. -/
def ask_llm_simple (proxy_client : Option Unit)
    (llmInvoke : String → Except String String) (prompt : String) : String :=
  match proxy_client with
  | none => unavailable_msg
  | some _ =>
    match llmInvoke prompt with
    | Except.ok response => response
    | Except.error e => "Error querying LLM: " ++ e

/-- The session state read by the analysis button handler: the three
table slots of `st.session_state` (src/app.py lines 135 to 140). -/
structure Session where
  sales_df : Option DataFrame
  production_df : Option DataFrame
  reservations_df : Option DataFrame
deriving DecidableEq

/-- src/app.py lines 270 to 275: the material-analysis action reads the
three tables from the session and runs the filter; it performs no write
to the session, so the resulting state is the input state. -/
def runMaterialFilter (st : Session) (material_code : String) :
    Except String AnalysisData × Session :=
  (analyze_material_data material_code st.sales_df st.production_df st.reservations_df, st)

/-! Helper lemmas shared by the claim theorems. -/

/-- A metacharacter-free character list compiles to itself as literals. -/
theorem compileAux_noMeta (l : List Char)
    (h : l.all (fun c => !pyMetachars.contains c) = true) :
    compileAux l = Except.ok (l.map RTok.lit) := by
  induction l with
  | nil => rfl
  | cons c cs ih =>
    simp only [List.all_cons, Bool.and_eq_true] at h
    obtain ⟨hc, hcs⟩ := h
    have hmem : pyMetachars.contains c = false := by
      cases hcontain : pyMetachars.contains c
      · rfl
      · rw [hcontain] at hc
        simp at hc
    have hpar : c ≠ '(' := by
      intro heq
      subst heq
      simp [pyMetachars] at hmem
    have hpar2 : c ≠ ')' := by
      intro heq
      subst heq
      simp [pyMetachars] at hmem
    have hdot : c ≠ '.' := by
      intro heq
      subst heq
      simp [pyMetachars] at hmem
    have hnotmem : c ∉ pyMetachars := by simpa using hmem
    simp [compileAux, hpar, hpar2, hdot, hmem, hnotmem, ih hcs, Except.map]

/-- A metacharacter-free token compiles to the list of its characters as
literal pattern tokens. -/
theorem compilePy_noMeta (token : String) (h : noMeta token = true) :
    compilePy token = Except.ok (token.data.map RTok.lit) :=
  compileAux_noMeta token.data h

/-- A purely literal pattern matches at the head exactly when the
lowercased pattern characters are a prefix of the lowercased text. -/
theorem matchesAt_lit (t s : List Char) :
    matchesAt (t.map RTok.lit) s
      = isPrefixCh (t.map Char.toLower) (s.map Char.toLower) := by
  induction t generalizing s with
  | nil => cases s <;> rfl
  | cons a as ih =>
    cases s with
    | nil => rfl
    | cons b bs =>
      simp [matchesAt, isPrefixCh, tokMatch, ih bs]

/-- A purely literal pattern is found by `re.search` exactly when the
lowercased pattern occurs as a contiguous run in the lowercased text:
case-insensitive substring containment. -/
theorem regexSearch_lit (t s : List Char) :
    regexSearch (t.map RTok.lit) s
      = isSubstrCh (t.map Char.toLower) (s.map Char.toLower) := by
  induction s with
  | nil => simpa [regexSearch, isSubstrCh] using matchesAt_lit t []
  | cons c cs ih =>
    simp [regexSearch, isSubstrCh, matchesAt_lit t (c :: cs), ih]

/-- Row matching against a literal pattern is the row-level OR of
spec-side substring containment over the stringified cells. -/
theorem rowMatchB_lit (token : String) (row : Row) :
    rowMatchB (token.data.map RTok.lit) row
      = row.any (fun kv => specContains (pyStr kv.2) token) := by
  simp only [rowMatchB, specContains, regexSearch_lit]

/-- The guarded result list of the filter body is the filtered list. -/
theorem ite_length_pos (l : List Row) :
    (if l.length > 0 then l else ([] : List Row)) = l := by
  cases l <;> simp

/-- What a successful per-table filter run returns. -/
theorem analyzeOne_ok (material_code : String) (df : DataFrame) (ms : MatchSet)
    (h : analyzeOne material_code df = Except.ok ms) :
    ∃ pat, compilePy material_code = Except.ok pat ∧
      ms.count = (df.rows.filter (rowMatchB pat)).length ∧
      ms.data = df.rows.filter (rowMatchB pat) := by
  unfold analyzeOne at h
  cases hc : compilePy material_code with
  | error e => rw [hc] at h; exact absurd h (by simp)
  | ok pat =>
    rw [hc] at h
    simp only [ite_length_pos] at h
    refine ⟨pat, rfl, ?_, ?_⟩
    · cases h₂ : ms with
      | mk c d => rw [h₂] at h; injection h with h₃; injection h₃; simp_all
    · cases h₂ : ms with
      | mk c d => rw [h₂] at h; injection h with h₃; injection h₃; simp_all

/-- A successful per-table run with a metacharacter-free token. -/
theorem analyzeOne_noMeta (material_code : String) (df : DataFrame)
    (h : noMeta material_code = true) :
    analyzeOne material_code df =
      Except.ok ⟨(df.rows.filter (rowMatchB (material_code.data.map RTok.lit))).length,
        df.rows.filter (rowMatchB (material_code.data.map RTok.lit))⟩ := by
  unfold analyzeOne
  rw [compilePy_noMeta material_code h]
  simp only [ite_length_pos]

/-- Inversion for one optional table slot. -/
theorem analyzeOpt_ok (material_code : String) (o : Option DataFrame)
    (res : Option MatchSet) (h : analyzeOpt material_code o = Except.ok res) :
    (o = none ∧ res = none) ∨
      (∃ d ms, o = some d ∧ res = some ms ∧ analyzeOne material_code d = Except.ok ms) := by
  cases o with
  | none =>
    left
    unfold analyzeOpt at h
    injection h with h₁
    exact ⟨rfl, h₁.symm⟩
  | some d =>
    right
    simp only [analyzeOpt] at h
    cases ha : analyzeOne material_code d with
    | error e => rw [ha] at h; exact absurd h (by simp)
    | ok ms =>
      rw [ha] at h
      injection h with h₁
      exact ⟨d, ms, rfl, h₁.symm, ha⟩

/-- A successful whole-filter run succeeds slot by slot. -/
theorem analyze_components (material_code : String)
    (s p r : Option DataFrame) (ad : AnalysisData)
    (h : analyze_material_data material_code s p r = Except.ok ad) :
    analyzeOpt material_code s = Except.ok ad.sales ∧
      analyzeOpt material_code p = Except.ok ad.production ∧
      analyzeOpt material_code r = Except.ok ad.reservations := by
  unfold analyze_material_data at h
  cases hs : analyzeOpt material_code s with
  | error e => rw [hs] at h; exact absurd h (by simp)
  | ok ms =>
    rw [hs] at h
    cases hp : analyzeOpt material_code p with
    | error e => rw [hp] at h; exact absurd h (by simp)
    | ok mp =>
      rw [hp] at h
      cases hr : analyzeOpt material_code r with
      | error e => rw [hr] at h; exact absurd h (by simp)
      | ok mr =>
        rw [hr] at h
        injection h with h₁
        subst h₁
        exact ⟨rfl, rfl, rfl⟩

/-- From a successful whole-filter run, the match set reported for a
present table is a successful per-table run on that table. -/
theorem analyze_table (material_code : String)
    (s p r : Option DataFrame) (ad : AnalysisData) (df : DataFrame) (ms : MatchSet)
    (h : analyze_material_data material_code s p r = Except.ok ad)
    (hdf : (s = some df ∧ ad.sales = some ms) ∨
      (p = some df ∧ ad.production = some ms) ∨
      (r = some df ∧ ad.reservations = some ms)) :
    analyzeOne material_code df = Except.ok ms := by
  obtain ⟨hs, hp, hr⟩ := analyze_components material_code s p r ad h
  rcases hdf with ⟨hoc, hsl⟩ | ⟨hoc, hsl⟩ | ⟨hoc, hsl⟩
  · rcases analyzeOpt_ok material_code s ad.sales hs with ⟨h₁, _⟩ | ⟨d, ms₂, h₁, h₂, h₃⟩
    · rw [hoc] at h₁; exact absurd h₁ (by simp)
    · rw [hoc] at h₁
      injection h₁ with h₄
      rw [hsl] at h₂
      injection h₂ with h₅
      rw [← h₄, ← h₅] at h₃
      exact h₃
  · rcases analyzeOpt_ok material_code p ad.production hp with ⟨h₁, _⟩ | ⟨d, ms₂, h₁, h₂, h₃⟩
    · rw [hoc] at h₁; exact absurd h₁ (by simp)
    · rw [hoc] at h₁
      injection h₁ with h₄
      rw [hsl] at h₂
      injection h₂ with h₅
      rw [← h₄, ← h₅] at h₃
      exact h₃
  · rcases analyzeOpt_ok material_code r ad.reservations hr with ⟨h₁, _⟩ | ⟨d, ms₂, h₁, h₂, h₃⟩
    · rw [hoc] at h₁; exact absurd h₁ (by simp)
    · rw [hoc] at h₁
      injection h₁ with h₄
      rw [hsl] at h₂
      injection h₂ with h₅
      rw [← h₄, ← h₅] at h₃
      exact h₃

/-- Per-table count equals the length of the reported rows. -/
theorem analyzeOne_count (material_code : String) (df : DataFrame) (ms : MatchSet)
    (h : analyzeOne material_code df = Except.ok ms) :
    ms.count = ms.data.length := by
  obtain ⟨pat, _, hcount, hdata⟩ := analyzeOne_ok material_code df ms h
  rw [hcount, hdata]

/-- The empty pattern is found in every character list. -/
theorem regexSearch_nil (l : List Char) : regexSearch [] l = true := by
  cases l <;> simp [regexSearch, matchesAt]

/-- Against the empty pattern a row matches exactly when it has at least
one cell. -/
theorem rowMatchB_nil (row : Row) : rowMatchB [] row = !row.isEmpty := by
  cases row <;> simp [rowMatchB, regexSearch_nil]

/-- The per-table filter with the empty token keeps exactly the rows
that have at least one cell. -/
theorem analyzeOne_empty (df : DataFrame) :
    analyzeOne "" df = Except.ok
      ⟨(df.rows.filter fun row => !row.isEmpty).length,
        df.rows.filter fun row => !row.isEmpty⟩ := by
  unfold analyzeOne
  have hc : compilePy "" = Except.ok [] := rfl
  rw [hc]
  have hfun : rowMatchB ([] : List RTok) = fun row => !row.isEmpty := funext rowMatchB_nil
  simp only [ite_length_pos, hfun]

/-! The claim theorems. -/

/-- C1, counterexample: the claim as stated is false on the code.  The
token is compiled as a regular expression, so for the token X.Z the row
whose only cell stringifies to XAZ is returned by
`analyze_material_data`, yet no column of that row contains X.Z as a
case-insensitive substring. -/
theorem filter_match_is_not_substring_match :
    analyze_material_data "X.Z" (some ⟨["A"], [[("A", Cell.str "XAZ")]]⟩) none none
        = Except.ok ⟨some ⟨1, [[("A", Cell.str "XAZ")]]⟩, none, none⟩
      ∧ (([("A", Cell.str "XAZ")] : Row).any
          (fun kv => specContains (pyStr kv.2) "X.Z")) = false :=
  ⟨by rfl, by rfl⟩

/-- C1, amended: for a token free of regex metacharacters (on which
regex search coincides with substring search), a row of a provided table
is in that table entry of the result of `analyze_material_data` exactly
when some column stringifies to a value containing the token as a
case-insensitive substring, and a row of the table left out of the
result has no such column. -/
theorem filter_match_iff_ci_substring (material_code : String)
    (hm : noMeta material_code = true)
    (s p r : Option DataFrame) (ad : AnalysisData)
    (h : analyze_material_data material_code s p r = Except.ok ad)
    (df : DataFrame) (ms : MatchSet)
    (hdf : (s = some df ∧ ad.sales = some ms) ∨
      (p = some df ∧ ad.production = some ms) ∨
      (r = some df ∧ ad.reservations = some ms))
    (row : Row) :
    (row ∈ ms.data →
      row ∈ df.rows ∧
        row.any (fun kv => specContains (pyStr kv.2) material_code) = true) ∧
    (row ∈ df.rows → row ∉ ms.data →
      row.any (fun kv => specContains (pyStr kv.2) material_code) = false) := by
  have h₁ := analyze_table material_code s p r ad df ms h hdf
  obtain ⟨pat, hc, _, hdata⟩ := analyzeOne_ok material_code df ms h₁
  rw [compilePy_noMeta material_code hm] at hc
  injection hc with hc
  subst hc
  constructor
  · intro hrow
    rw [hdata] at hrow
    have hmem := List.mem_filter.mp hrow
    refine ⟨hmem.1, ?_⟩
    have h₂ := hmem.2
    rwa [rowMatchB_lit] at h₂
  · intro hin hnotin
    cases hval : row.any (fun kv => specContains (pyStr kv.2) material_code) with
    | false => rfl
    | true =>
      exfalso
      apply hnotin
      rw [hdata]
      apply List.mem_filter.mpr
      refine ⟨hin, ?_⟩
      rw [rowMatchB_lit]
      exact hval

/-- C1 witness: the amended theorem applied to the one-row sales table
whose MATNR cell is M1 and to the token M1. -/
theorem filter_match_iff_ci_substring_witness :
    ([("MATNR", Cell.str "M1")] : Row) ∈ ([[("MATNR", Cell.str "M1")]] : List Row) ∧
      (([("MATNR", Cell.str "M1")] : Row).any
        (fun kv => specContains (pyStr kv.2) "M1")) = true :=
  (filter_match_iff_ci_substring "M1" (by decide)
    (some ⟨["MATNR"], [[("MATNR", Cell.str "M1")]]⟩) none none
    ⟨some ⟨1, [[("MATNR", Cell.str "M1")]]⟩, none, none⟩ (by rfl)
    ⟨["MATNR"], [[("MATNR", Cell.str "M1")]]⟩ ⟨1, [[("MATNR", Cell.str "M1")]]⟩
    (Or.inl ⟨rfl, rfl⟩) [("MATNR", Cell.str "M1")]).1 (by decide)

/-- C2: in every successful result of `analyze_material_data`, each
per-table entry reports a count equal to the length of its rows list. -/
theorem filter_count_eq_rows_length (material_code : String)
    (s p r : Option DataFrame) (ad : AnalysisData)
    (h : analyze_material_data material_code s p r = Except.ok ad)
    (ms : MatchSet)
    (hms : ad.sales = some ms ∨ ad.production = some ms ∨ ad.reservations = some ms) :
    ms.count = ms.data.length := by
  obtain ⟨hs, hp, hr⟩ := analyze_components material_code s p r ad h
  rcases hms with hms | hms | hms
  · rcases analyzeOpt_ok material_code s ad.sales hs with ⟨_, h₁⟩ | ⟨d, ms₂, _, h₂, h₃⟩
    · rw [hms] at h₁; exact absurd h₁ (by simp)
    · rw [hms] at h₂
      injection h₂ with h₄
      rw [← h₄] at h₃
      exact analyzeOne_count material_code d ms h₃
  · rcases analyzeOpt_ok material_code p ad.production hp with ⟨_, h₁⟩ | ⟨d, ms₂, _, h₂, h₃⟩
    · rw [hms] at h₁; exact absurd h₁ (by simp)
    · rw [hms] at h₂
      injection h₂ with h₄
      rw [← h₄] at h₃
      exact analyzeOne_count material_code d ms h₃
  · rcases analyzeOpt_ok material_code r ad.reservations hr with ⟨_, h₁⟩ | ⟨d, ms₂, _, h₂, h₃⟩
    · rw [hms] at h₁; exact absurd h₁ (by simp)
    · rw [hms] at h₂
      injection h₂ with h₄
      rw [← h₄] at h₃
      exact analyzeOne_count material_code d ms h₃

/-- C2 witness: the count property evaluated on a concrete one-row
table and the token M1. -/
theorem filter_count_eq_rows_length_witness :
    (MatchSet.mk 1 [[("MATNR", Cell.str "M1")]]).count
      = (MatchSet.mk 1 [[("MATNR", Cell.str "M1")]]).data.length :=
  filter_count_eq_rows_length "M1"
    (some ⟨["MATNR"], [[("MATNR", Cell.str "M1")]]⟩) none none
    ⟨some ⟨1, [[("MATNR", Cell.str "M1")]]⟩, none, none⟩ (by rfl)
    ⟨1, [[("MATNR", Cell.str "M1")]]⟩ (Or.inl rfl)

/-- C3, counterexample: the claim as stated is false on the code.  With
the empty token, the row whose only cell is null is returned by
`analyze_material_data` even though it has no non-null cell, because the
null cell was stringified to nan and the empty token is contained in
every string. -/
theorem empty_token_returns_allnull_row :
    analyze_material_data "" (some ⟨["A"], [[("A", Cell.null)]]⟩) none none
        = Except.ok ⟨some ⟨1, [[("A", Cell.null)]]⟩, none, none⟩
      ∧ (([("A", Cell.null)] : Row).all fun kv => kv.2 == Cell.null) = true :=
  ⟨by rfl, by rfl⟩

/-- C3, amended: with the empty token, `analyze_material_data` returns,
for every provided table, exactly the rows that have at least one cell
(equivalently at least one column) - including rows all of whose cells
are null, since a null cell stringifies to nan and the empty token is
contained in every string. -/
theorem filter_empty_token (s p r : Option DataFrame) :
    analyze_material_data "" s p r = Except.ok
      ⟨s.map (fun d => ⟨(d.rows.filter fun row => !row.isEmpty).length,
          d.rows.filter fun row => !row.isEmpty⟩),
        p.map (fun d => ⟨(d.rows.filter fun row => !row.isEmpty).length,
          d.rows.filter fun row => !row.isEmpty⟩),
        r.map (fun d => ⟨(d.rows.filter fun row => !row.isEmpty).length,
          d.rows.filter fun row => !row.isEmpty⟩)⟩ := by
  have hopt : ∀ o : Option DataFrame, analyzeOpt "" o = Except.ok
      (o.map fun d => (⟨(d.rows.filter fun row => !row.isEmpty).length,
        d.rows.filter fun row => !row.isEmpty⟩ : MatchSet)) := by
    intro o
    cases o with
    | none => rfl
    | some d => simp [analyzeOpt, analyzeOne_empty]
  unfold analyze_material_data
  rw [hopt s, hopt p, hopt r]

/-- C4, counterexample: the claim as stated is false on the code.  A
null cell stringifies to nan, which the non-empty token a matches case
insensitively, so the row all of whose cells are null is returned by
`analyze_material_data` for that token. -/
theorem allnull_row_matches_nonempty_token :
    analyze_material_data "a" (some ⟨["A"], [[("A", Cell.null)]]⟩) none none
        = Except.ok ⟨some ⟨1, [[("A", Cell.null)]]⟩, none, none⟩
      ∧ "a" ≠ ""
      ∧ (([("A", Cell.null)] : Row).all fun kv => kv.2 == Cell.null) = true :=
  ⟨by rfl, by decide, by rfl⟩

/-- C4, amended: a null cell stringifies to the placeholder nan, which
does match tokens contained in it (such as a, n, na, nan).  For a token
free of regex metacharacters that is not a case-insensitive substring of
nan, every row returned by `analyze_material_data` has at least one
non-null cell, so a row all of whose cells are null is never returned
for such a token. -/
theorem allnull_rows_excluded_for_non_nan_tokens (material_code : String)
    (hm : noMeta material_code = true)
    (hnan : specContains "nan" material_code = false)
    (s p r : Option DataFrame) (ad : AnalysisData)
    (h : analyze_material_data material_code s p r = Except.ok ad)
    (df : DataFrame) (ms : MatchSet)
    (hdf : (s = some df ∧ ad.sales = some ms) ∨
      (p = some df ∧ ad.production = some ms) ∨
      (r = some df ∧ ad.reservations = some ms))
    (row : Row) (hrow : row ∈ ms.data) :
    (row.any fun kv => !(kv.2 == Cell.null)) = true := by
  have h₁ := analyze_table material_code s p r ad df ms h hdf
  obtain ⟨pat, hc, _, hdata⟩ := analyzeOne_ok material_code df ms h₁
  rw [compilePy_noMeta material_code hm] at hc
  injection hc with hc
  subst hc
  rw [hdata] at hrow
  have hmatch := (List.mem_filter.mp hrow).2
  rw [rowMatchB_lit] at hmatch
  obtain ⟨kv, hkv, hsc⟩ := List.any_eq_true.mp hmatch
  apply List.any_eq_true.mpr
  refine ⟨kv, hkv, ?_⟩
  cases hcell : kv.2 with
  | str s₂ => simp
  | int n => simp
  | null =>
    exfalso
    rw [hcell] at hsc
    have : specContains "nan" material_code = true := hsc
    rw [hnan] at this
    exact absurd this (by simp)

/-- C4 witness: the amended theorem applied to the token m1 (not a
substring of nan) and a table whose matching row has a string cell next
to a null cell. -/
theorem allnull_rows_excluded_witness :
    (([("A", Cell.str "M1"), ("B", Cell.null)] : Row).any
      fun kv => !(kv.2 == Cell.null)) = true :=
  allnull_rows_excluded_for_non_nan_tokens "m1" (by decide) (by decide)
    (some ⟨["A", "B"], [[("A", Cell.str "M1"), ("B", Cell.null)]]⟩) none none
    ⟨some ⟨1, [[("A", Cell.str "M1"), ("B", Cell.null)]]⟩, none, none⟩ (by rfl)
    ⟨["A", "B"], [[("A", Cell.str "M1"), ("B", Cell.null)]]⟩
    ⟨1, [[("A", Cell.str "M1"), ("B", Cell.null)]]⟩
    (Or.inl ⟨rfl, rfl⟩) [("A", Cell.str "M1"), ("B", Cell.null)] (by decide)

/-- C5, counterexample: the claim as stated is false on the code.  The
token is handed to the regex engine unescaped, so the token consisting
of one opening parenthesis makes `str.contains` raise re.error inside
`analyze_material_data`; nothing catches it, and it crosses into the
presentation layer.  The raised exception is modelled as
`Except.error`. -/
theorem invalid_regex_token_raises :
    analyze_material_data "(" (some ⟨["A"], [[("A", Cell.str "x")]]⟩) none none
      = Except.error "missing ), unterminated subpattern" := by rfl

/-- C5, amended: for every token free of regex metacharacters the filter
never raises - it returns a value for any combination of tables.  The
composers are total functions of their inputs, and `ask_llm_simple`
absorbs its failure paths into strings, so on such tokens no failure
crosses into the presentation layer; a token that is an invalid regular
expression, however, raises from inside the filter. -/
theorem filter_total_for_plain_tokens (material_code : String)
    (hm : noMeta material_code = true) (s p r : Option DataFrame) :
    ∃ ad, analyze_material_data material_code s p r = Except.ok ad := by
  have hopt : ∀ o : Option DataFrame, ∃ res, analyzeOpt material_code o = Except.ok res := by
    intro o
    cases o with
    | none => exact ⟨none, rfl⟩
    | some d =>
      refine ⟨some ⟨(d.rows.filter (rowMatchB (material_code.data.map RTok.lit))).length,
        d.rows.filter (rowMatchB (material_code.data.map RTok.lit))⟩, ?_⟩
      simp [analyzeOpt, analyzeOne_noMeta material_code d hm]
  obtain ⟨rs, hs⟩ := hopt s
  obtain ⟨rp, hp⟩ := hopt p
  obtain ⟨rr, hr⟩ := hopt r
  refine ⟨⟨rs, rp, rr⟩, ?_⟩
  unfold analyze_material_data
  rw [hs, hp, hr]

/-- C5 witness: the amended theorem applied to the token M1 and one
concrete table. -/
theorem filter_total_for_plain_tokens_witness :
    ∃ ad, analyze_material_data "M1"
      (some ⟨["MATNR"], [[("MATNR", Cell.str "M1")]]⟩) none none = Except.ok ad :=
  filter_total_for_plain_tokens "M1" (by decide)
    (some ⟨["MATNR"], [[("MATNR", Cell.str "M1")]]⟩) none none

/-- C6: the material-analysis action leaves the session state (the three
table slots) unchanged, and running the filter a second time on the
resulting state with the same token yields the identical result.  In the
source the filter only reads the tables: `astype`, boolean indexing and
`to_dict` all build fresh objects, so the result is a fresh snapshot and
no mutation of the source tables occurs; the embedding makes this
explicit by returning the session state alongside the result. -/
theorem filter_idempotent_no_mutation (st : Session) (material_code : String) :
    (runMaterialFilter st material_code).2 = st ∧
      (runMaterialFilter ((runMaterialFilter st material_code).2) material_code).1
        = (runMaterialFilter st material_code).1 :=
  ⟨rfl, rfl⟩

/-- C7: both prompt composers are pure functions of their inputs - two
calls of `create_analysis_prompt` with the same token, filter result and
tables produce the identical string, and likewise two calls of
`compose_general_prompt` with the same query and tables; there is no
randomness or hidden state in composition. -/
theorem composers_deterministic (material_code user_query : String)
    (ad : AnalysisData) (s p r : Option DataFrame) (sd pd rd : DataFrame) :
    create_analysis_prompt material_code ad s p r
        = create_analysis_prompt material_code ad s p r
      ∧ compose_general_prompt user_query sd pd rd
        = compose_general_prompt user_query sd pd rd :=
  ⟨rfl, rfl⟩

/-- C8: the head sample of a table with at least 5 rows has exactly 5
rows, the first 5 of the table in order; for a table with fewer than 5
rows the sample is the whole table; for an absent table the sample is
the empty list; and the composed material prompt embeds the rendered
samples of the three tables, in table order, between the fixed template
segments. -/
theorem head_sample_spec (d₁ : DataFrame) (h₁ : 5 ≤ d₁.rows.length)
    (d₂ : DataFrame) (h₂ : d₂.rows.length < 5)
    (material_code : String) (ad : AnalysisData) (s p r : Option DataFrame) :
    (headSample (some d₁)).length = 5 ∧
      headSample (some d₁) = d₁.rows.take 5 ∧
      headSample (some d₂) = d₂.rows ∧
      headSample (none : Option DataFrame) = [] ∧
      ∃ pre mid₁ mid₂ post,
        create_analysis_prompt material_code ad s p r =
          pre ++ pyReprRows (headSample s)
            ++ (mid₁ ++ pyReprRows (headSample p)
              ++ (mid₂ ++ pyReprRows (headSample r) ++ post)) := by
  refine ⟨?_, rfl, ?_, rfl, ?_⟩
  · rw [headSample, List.length_take, Nat.min_eq_left h₁]
  · rw [headSample, List.take_of_length_le (Nat.le_of_lt h₂)]
  · refine ⟨camSeg0 material_code ad s, camSeg1 material_code ad p,
      camSeg2 material_code ad r, camSeg3 material_code ad, ?_⟩
    unfold create_analysis_prompt
    simp only [String.append_assoc]

/-- C8 witness: the sample properties evaluated on a table of 6 one-cell
rows and a table of 1 row. -/
theorem head_sample_spec_witness :
    5 ≤ (DataFrame.mk ["A"] [[("A", Cell.int 1)], [("A", Cell.int 2)],
        [("A", Cell.int 3)], [("A", Cell.int 4)], [("A", Cell.int 5)],
        [("A", Cell.int 6)]]).rows.length ∧
      (headSample (some (DataFrame.mk ["A"] [[("A", Cell.int 1)], [("A", Cell.int 2)],
        [("A", Cell.int 3)], [("A", Cell.int 4)], [("A", Cell.int 5)],
        [("A", Cell.int 6)]]))).length = 5 :=
  ⟨by decide,
    (head_sample_spec
      ⟨["A"], [[("A", Cell.int 1)], [("A", Cell.int 2)], [("A", Cell.int 3)],
        [("A", Cell.int 4)], [("A", Cell.int 5)], [("A", Cell.int 6)]]⟩ (by decide)
      ⟨["A"], [[("A", Cell.int 1)]]⟩ (by decide)
      "M1" ⟨none, none, none⟩ none none none).1⟩

/-- C9: `ask_llm_simple` is a total function and so never raises: when
the proxy client was not constructed it returns the fixed unavailable
message; when the call itself fails it returns a string embedding the
error description; on success it returns the reply text unaltered. -/
theorem ask_llm_simple_behavior (llmInvoke : String → Except String String)
    (prompt : String) :
    ask_llm_simple none llmInvoke prompt = unavailable_msg ∧
      (∀ response, llmInvoke prompt = Except.ok response →
        ask_llm_simple (some ()) llmInvoke prompt = response) ∧
      (∀ e, llmInvoke prompt = Except.error e →
        ask_llm_simple (some ()) llmInvoke prompt = "Error querying LLM: " ++ e) := by
  refine ⟨rfl, ?_, ?_⟩
  · intro response hresp
    unfold ask_llm_simple
    rw [hresp]
  · intro e he
    unfold ask_llm_simple
    rw [he]

/-- C9 witness: the behaviour evaluated at a call oracle that succeeds
with a fixed reply. -/
theorem ask_llm_simple_behavior_witness :
    ((fun _ => Except.ok "analysis text") : String → Except String String) "prompt text"
        = Except.ok "analysis text"
      ∧ ask_llm_simple (some ()) (fun _ => Except.ok "analysis text") "prompt text"
        = "analysis text" :=
  ⟨rfl, (ask_llm_simple_behavior (fun _ => Except.ok "analysis text") "prompt text").2.1
    "analysis text" rfl⟩

/-- C10: each rows list in a successful result of
`analyze_material_data` is the filter of the source rows by the row
match test: a subsequence of the source table in the source order,
consisting of exactly the matching rows. -/
theorem filter_preserves_source_order (material_code : String)
    (s p r : Option DataFrame) (ad : AnalysisData)
    (h : analyze_material_data material_code s p r = Except.ok ad)
    (df : DataFrame) (ms : MatchSet)
    (hdf : (s = some df ∧ ad.sales = some ms) ∨
      (p = some df ∧ ad.production = some ms) ∨
      (r = some df ∧ ad.reservations = some ms)) :
    List.Sublist ms.data df.rows ∧
      ∃ pat, compilePy material_code = Except.ok pat ∧
        ms.data = df.rows.filter (rowMatchB pat) := by
  have h₁ := analyze_table material_code s p r ad df ms h hdf
  obtain ⟨pat, hc, _, hdata⟩ := analyzeOne_ok material_code df ms h₁
  refine ⟨?_, pat, hc, hdata⟩
  rw [hdata]
  exact List.filter_sublist df.rows

/-- C10 witness: order preservation evaluated on a two-row table whose
first and third cells match the token m1. -/
theorem filter_preserves_source_order_witness :
    List.Sublist ([[("MATNR", Cell.str "M1")], [("MATNR", Cell.str "M1X")]] : List Row)
        ([[("MATNR", Cell.str "M1")], [("MATNR", Cell.str "ZZ")],
          [("MATNR", Cell.str "M1X")]] : List Row)
      ∧ ∃ pat, compilePy "m1" = Except.ok pat ∧
          ([[("MATNR", Cell.str "M1")], [("MATNR", Cell.str "M1X")]] : List Row)
            = ([[("MATNR", Cell.str "M1")], [("MATNR", Cell.str "ZZ")],
                [("MATNR", Cell.str "M1X")]] : List Row).filter (rowMatchB pat) :=
  filter_preserves_source_order "m1"
    (some ⟨["MATNR"], [[("MATNR", Cell.str "M1")], [("MATNR", Cell.str "ZZ")],
      [("MATNR", Cell.str "M1X")]]⟩) none none
    ⟨some ⟨2, [[("MATNR", Cell.str "M1")], [("MATNR", Cell.str "M1X")]]⟩, none, none⟩
    (by rfl)
    ⟨["MATNR"], [[("MATNR", Cell.str "M1")], [("MATNR", Cell.str "ZZ")],
      [("MATNR", Cell.str "M1X")]]⟩
    ⟨2, [[("MATNR", Cell.str "M1")], [("MATNR", Cell.str "M1X")]]⟩
    (Or.inl ⟨rfl, rfl⟩)
